import Mathlib

/-!
Verification of the Cloudflare-KV-Driver repository against its
natural-language specification.

The repository wraps the Cloudflare Workers KV HTTP API.  The file
`src/kv.ts` (here `src/unnamed/part_000`) contains two versions of the
`WorkersKv` class: the current one (first in the file) and an older one
(second in the file, after the separator).  The Fetch-and-Classify
component (`fetch.js` / `CfHttpFetch`) is not present under `src/`;
where a claim depends on it, the definition is modelled from the spec
and marked as such.

The shallow embedding below translates the relevant methods into pure
Lean functions.  Stateful aspects (listener invocation, console
warnings, thrown exceptions) are made explicit:

* a thrown JavaScript error is a value of `CfKv.ThrownErr`;
* a listener ("extension function") is a function from its argument
  tuple to `Except ThrownErr Unit` (`.error` models a throwing
  listener);
* each call to `funcArgHandlers` is recorded as a notification record:
  the argument tuple plus the list of indices of listeners that were
  actually invoked, in invocation order;
* `bridge` returns a `BridgeRun` record: the validation argument it
  handed to `CfHttpFetch`, the list of notifications it performed, and
  its final outcome (`Except` models return vs. throw).
-/

namespace CfKv

/-- The `validateCfResponseMethod` parameter of `bridge`:
one of the three strings `"string" | "full" | "withoutResult"`. -/
inductive VMethod where
  | full
  | str
  | withoutResult
deriving DecidableEq, Repr

/-- The third constructor argument handed to `CfHttpFetch`.  In the
first implementation it is the JavaScript expression
`this.isValidateCfResponse && validateCfResponseMethod`, whose value is
either one of the three mode strings or the boolean `false`. -/
inductive ValidateArg where
  | vstr (m : VMethod)
  | vbool (b : Bool)
deriving DecidableEq, Repr

/-- `this.isValidateCfResponse && validateCfResponseMethod`
(src/unnamed/part_000, line 84): JavaScript `&&` returns the left
operand when it is falsy, otherwise the right operand. -/
def validateArgOf (isValidateCfResponse : Bool) (m : VMethod) : ValidateArg :=
  if isValidateCfResponse then .vstr m else .vbool false

/-- A JavaScript error value thrown somewhere during an operation.
The constructors distinguish the error classes named by the spec
(`TransportError`, `SerializationError`) and errors thrown by listener
callbacks; the `detail` payload keeps distinct errors distinct. -/
inductive ThrownErr where
  | transport (detail : Nat)
  | serializationFailure (detail : Nat)
  | listenerFailure (detail : Nat)
deriving DecidableEq, Repr

/-- The `errDetail` argument of `funcArgHandlers`: either JavaScript
`null`/`undefined`, the `cfError` list from the fetch response, or the
result of `serializeError(err)` on a caught error. -/
inductive ErrDetail (ε : Type) where
  | null
  | cfErrors (l : List ε)
  | serialized (e : ThrownErr)
deriving DecidableEq, Repr

/-- `FetchInterfaces.OwnFetchResponse`, as used by the code under
`src/`: the record returned by `CfHttpFetch.fetch()`.
`isCfReqSuccess : boolean | null` is modelled as `Option Bool`
(`none` = JavaScript `null`, the uncertain outcome);
`cfError` is `null` or a list of Cloudflare error objects
(`none` = `null`, so JavaScript truthiness of `req.cfError` is
`cfError.isSome` — note a present-but-empty array is truthy);
`cfRes` (the parsed body) and `http` (raw HTTP metadata) are kept
abstract in the type parameters `χ` and `η`, with accessor functions
supplied where the code indexes into them. -/
structure OwnFetchResponse (χ ε η : Type) where
  isCfReqSuccess : Option Bool
  cfError : Option (List ε)
  cfRes : χ
  http : η
deriving DecidableEq, Repr

/-- The argument tuple passed to each extension function by
`funcArgHandlers`: `(processSuccess, command, cfFetchRes, errDetail)`.
The command is kept abstract in `κ`. -/
structure ListenerArgs (κ χ ε η : Type) where
  processSuccess : Option Bool
  command : κ
  cfFetchRes : Option (OwnFetchResponse χ ε η)
  errDetail : ErrDetail ε
deriving DecidableEq, Repr

/-- An extension function ("listener").  `.error e` models the listener
throwing the JavaScript error `e`. -/
def Listener (κ χ ε η : Type) : Type :=
  ListenerArgs κ χ ε η → Except ThrownErr Unit

/-- The loop body of `funcArgHandlers`
(src/unnamed/part_000, lines 114-116):
`for (const func of this.extensionArg) func(...)`.
There is no `try`/`catch` around the call, so the first listener that
throws aborts the loop and its exception propagates.  The result is the
list of indices (starting at `i`) of the listeners that were invoked,
in invocation order, together with the propagated exception if any. -/
def funcArgHandlersFrom (i : Nat) (fs : List (Listener κ χ ε η))
    (a : ListenerArgs κ χ ε η) : List Nat × Option ThrownErr :=
  match fs with
  | [] => ([], none)
  | f :: rest =>
    match f a with
    | .ok _ =>
      let r := funcArgHandlersFrom (i + 1) rest a
      (i :: r.1, r.2)
    | .error e => ([i], some e)

/-- `WorkersKv.funcArgHandlers` (first implementation,
src/unnamed/part_000, lines 108-118), instrumented with the invocation
trace. -/
def funcArgHandlers (fs : List (Listener κ χ ε η))
    (a : ListenerArgs κ χ ε η) : List Nat × Option ThrownErr :=
  funcArgHandlersFrom 0 fs a

/-- The outcome of `new CfHttpFetch(...).fetch()` as observed by
`bridge`: either a resolved `OwnFetchResponse` or a thrown error (a
transport failure or a serialization failure inside the fetch
component). -/
inductive FetchOutcome (χ ε η : Type) where
  | ok (res : OwnFetchResponse χ ε η)
  | threw (e : ThrownErr)
deriving DecidableEq, Repr

/-- One recorded call to `funcArgHandlers`: the argument tuple and the
indices of the listeners that ran. -/
abbrev NotifRecord (κ χ ε η : Type) : Type :=
  ListenerArgs κ χ ε η × List Nat

/-- The observable behaviour of one `bridge` call: the validation
argument passed to `CfHttpFetch`, the notifications performed, and the
final outcome (`.ok` = the response is returned, `.error` = the error
propagates to the caller). -/
structure BridgeRun (κ χ ε η : Type) where
  validateArg : ValidateArg
  notifs : List (NotifRecord κ χ ε η)
  final : Except ThrownErr (OwnFetchResponse χ ε η)

/-- `cfFetch.cfError` as an `errDetail` argument
(`null` stays `null`, an array is passed through). -/
def cfErrDetail (c : Option (List ε)) : ErrDetail ε :=
  match c with
  | none => .null
  | some l => .cfErrors l

/-- `WorkersKv.bridge` (first implementation, src/unnamed/part_000,
lines 67-99).  The whole `CfHttpFetch` call, the success notification
and the `return` live inside one `try` block; the `catch` block
notifies `(false, command, null, serializeError(err))` and re-throws.
Consequently a listener that throws during the success notification is
itself caught by the `catch`, which triggers a second notification and
finally re-throws the listener error; a listener that throws inside the
`catch` notification propagates directly. -/
def bridge (isValidateCfResponse : Bool) (fs : List (Listener κ χ ε η))
    (command : κ) (m : VMethod) (outcome : FetchOutcome χ ε η) :
    BridgeRun κ χ ε η :=
  let va := validateArgOf isValidateCfResponse m
  match outcome with
  | .threw e =>
    let a : ListenerArgs κ χ ε η := ⟨some false, command, none, .serialized e⟩
    let r := funcArgHandlers fs a
    match r.2 with
    | none => ⟨va, [(a, r.1)], .error e⟩
    | some e2 => ⟨va, [(a, r.1)], .error e2⟩
  | .ok res =>
    let a1 : ListenerArgs κ χ ε η :=
      ⟨res.isCfReqSuccess, command, some res, cfErrDetail res.cfError⟩
    let r1 := funcArgHandlers fs a1
    match r1.2 with
    | none => ⟨va, [(a1, r1.1)], .ok res⟩
    | some e1 =>
      let a2 : ListenerArgs κ χ ε η := ⟨some false, command, none, .serialized e1⟩
      let r2 := funcArgHandlers fs a2
      match r2.2 with
      | none => ⟨va, [(a1, r1.1), (a2, r2.1)], .error e1⟩
      | some e2 => ⟨va, [(a1, r1.1), (a2, r2.1)], .error e2⟩

/-- `WorkersKv.bridge` of the second (older) class implementation
(src/unnamed/part_000, lines 819-847).  Differences from the first:
the validation argument is passed through unconditionally (there is no
`isValidateCfResponse` field), and the success-path notification is
`funcArgHandlers(true, command, cfFetch, null)` — the literal `true`
and `null` instead of `cfFetch.isCfReqSuccess` and `cfFetch.cfError`. -/
def bridgeSnd (fs : List (Listener κ χ ε η))
    (command : κ) (m : VMethod) (outcome : FetchOutcome χ ε η) :
    BridgeRun κ χ ε η :=
  let va := ValidateArg.vstr m
  match outcome with
  | .threw e =>
    let a : ListenerArgs κ χ ε η := ⟨some false, command, none, .serialized e⟩
    let r := funcArgHandlers fs a
    match r.2 with
    | none => ⟨va, [(a, r.1)], .error e⟩
    | some e2 => ⟨va, [(a, r.1)], .error e2⟩
  | .ok res =>
    let a1 : ListenerArgs κ χ ε η := ⟨some true, command, some res, .null⟩
    let r1 := funcArgHandlers fs a1
    match r1.2 with
    | none => ⟨va, [(a1, r1.1)], .ok res⟩
    | some e1 =>
      let a2 : ListenerArgs κ χ ε η := ⟨some false, command, none, .serialized e1⟩
      let r2 := funcArgHandlers fs a2
      match r2.2 with
      | none => ⟨va, [(a1, r1.1), (a2, r2.1)], .error e1⟩
      | some e2 => ⟨va, [(a1, r1.1), (a2, r2.1)], .error e2⟩

/-! ### The facade return path: `genReturnFromCfRes` and `listNamespaceKeys` -/

/-- The `method` argument of `genReturnFromCfRes`:
`"boolean" | "fullResult" | "string"`. -/
inductive RetMethod where
  | bool
  | fullResult
  | str
deriving DecidableEq, Repr

/-- The value returned by `genReturnFromCfRes` in its three modes. -/
inductive RetVal (ρ χ : Type) where
  | bool (b : Bool)
  | fullResult (r : ρ)
  | strVal (s : χ)
deriving DecidableEq, Repr

/-- The `errDetail` payload carried by a thrown `WorkersKvError` /
`CustomError`: the `cfError` list, the raw `req.http` metadata, or the
JavaScript `undefined` obtained from indexing a missing `errors` field. -/
inductive ErrInfo (ε η : Type) where
  | cfErrors (l : List ε)
  | http (h : η)
  | jsUndefined
deriving DecidableEq, Repr

/-- A thrown `WorkersKvError` (first implementation) or `CustomError`
(second implementation): `name` (the title), `msg` and `errDetail`. -/
structure KvError (ε η : Type) where
  name : String
  msg : String
  errDetail : ErrInfo ε η
deriving DecidableEq, Repr

/-- `"Please refer to the error message from Cloudflare."` -/
def REF_ERR_MSG : String := "Please refer to the error message from Cloudflare."

/-- `"Cloudflare did not return the error information."` -/
def NULL_ERR_MSG : String := "Cloudflare did not return the error information."

/-- The uncertain-outcome error title built in `genReturnFromCfRes`
(first implementation, src/unnamed/part_000, line 133). -/
def UNCERTAIN_ERR_MSG (command : String) : String :=
  "It is uncertain that whether the request \x27" ++ command ++
    "\x27 has been performed successfully."

/-- `WorkersKv.genReturnFromCfRes` (first implementation,
src/unnamed/part_000, lines 128-156).  `resultOf` models the JavaScript
indexing `req.cfRes["result"]`. -/
def genReturnFromCfRes (method : RetMethod) (req : OwnFetchResponse χ ε η)
    (command : String) (resultOf : χ → ρ) :
    Except (KvError ε η) (RetVal ρ χ) :=
  match req.isCfReqSuccess with
  | some false =>
    match req.cfError with
    | some l => .error ⟨"Failed to " ++ command, REF_ERR_MSG, .cfErrors l⟩
    | none => .error ⟨"Failed to " ++ command, NULL_ERR_MSG, .http req.http⟩
  | none =>
    match req.cfError with
    | some l => .error ⟨UNCERTAIN_ERR_MSG command, REF_ERR_MSG, .cfErrors l⟩
    | none => .error ⟨UNCERTAIN_ERR_MSG command, NULL_ERR_MSG, .http req.http⟩
  | some true =>
    match method with
    | .bool => .ok (.bool true)
    | .fullResult => .ok (.fullResult (resultOf req.cfRes))
    | .str => .ok (.strVal req.cfRes)

/-- JavaScript truthiness of `req.isCfReqSuccess : boolean | null`:
only the boolean `true` is truthy. -/
def truthySuccess (s : Option Bool) : Bool :=
  match s with
  | some true => true
  | _ => false

/-- `req.cfRes["errors"]` as a thrown error detail: a missing field
yields JavaScript `undefined`. -/
def errInfoOfErrors (c : Option (List ε)) : ErrInfo ε η :=
  match c with
  | some l => .cfErrors l
  | none => .jsUndefined

/-- `WorkersKv.genReturnFromCfRes` of the second (older) class
implementation (src/unnamed/part_000, lines 870-882):
`if (!req.isCfReqSuccess) throw new CustomError("Failed to " + command,
"", req.cfRes["errors"])`, then the same `switch`.  Note `null` (the
uncertain outcome) is falsy, so it is treated exactly like `false`.
`errorsOf` models the indexing `req.cfRes["errors"]`. -/
def genReturnFromCfResSnd (method : RetMethod) (req : OwnFetchResponse χ ε η)
    (command : String) (resultOf : χ → ρ) (errorsOf : χ → Option (List ε)) :
    Except (KvError ε η) (RetVal ρ χ) :=
  if truthySuccess req.isCfReqSuccess then
    match method with
    | .bool => .ok (.bool true)
    | .fullResult => .ok (.fullResult (resultOf req.cfRes))
    | .str => .ok (.strVal req.cfRes)
  else
    .error ⟨"Failed to " ++ command, "", errInfoOfErrors (errorsOf req.cfRes)⟩

/-- The command label of `listNamespaceKeys`. -/
def listKeysCommand : String := "Lists a namespace\x27s keys."

/-- The post-`bridge` step of `WorkersKv.listNamespaceKeys` (first
implementation, src/unnamed/part_000, lines 377-388): build
`{result, result_info}` from `req.cfRes`, return it when
`req.isCfReqSuccess` is truthy, otherwise throw
`WorkersKvError("Failed to " + command, "", req.cfRes["errors"])`.
The uncertain outcome `null` is falsy and therefore takes the failure
branch.  `resultOf`, `resultInfoOf` and `errorsOf` model the indexing
into the parsed body. -/
def listNamespaceKeysStep (req : OwnFetchResponse χ ε η)
    (resultOf : χ → ρ) (resultInfoOf : χ → ι) (errorsOf : χ → Option (List ε)) :
    Except (KvError ε η) (ρ × ι) :=
  if truthySuccess req.isCfReqSuccess then
    .ok (resultOf req.cfRes, resultInfoOf req.cfRes)
  else
    .error ⟨"Failed to " ++ listKeysCommand, "", errInfoOfErrors (errorsOf req.cfRes)⟩

/-! ### The write endpoints: expiration parameters and the warning -/

/-- The optional `urlParam` record of `writeKeyValuePair` /
`writeKeyValuePairMeta`: `expiration?` and `expiration_ttl?`, both
optional numbers (`none` = the field is `undefined`). -/
structure ExpireParam where
  expiration : Option Nat
  expiration_ttl : Option Nat
deriving DecidableEq, Repr

/-- One console warning printed through `CustomConsole.warning`. -/
structure Warning where
  title : String
  shortDescription : String
  detail : String
deriving DecidableEq, Repr

/-- The warning printed when both `expiration` and `expiration_ttl`
are supplied (src/unnamed/part_000, lines 506-508 and 575-577). -/
def bothExpireWarning : Warning :=
  ⟨"Only expiration_ttl will be used",
    "Specify either expiration or expiration TTL. Do not specify both.",
    "According to Cloudflare, \"If both are set, expiration_ttl is used and expiration is ignored.\""⟩

/-- The request body handed to `bridge` by the write endpoints:
the plain-text value, or the form-data record
`{value, metadata: JSON.stringify(metadata)}` (the serialized metadata
is received here as the string `metadataJson`). -/
inductive WriteBody where
  | plainText (value : String)
  | formData (value : String) (metadataJson : String)
deriving DecidableEq, Repr

/-- The `http` argument built by a write endpoint for `bridge`:
method, path, URL parameters, body, content type. -/
structure WriteHttpOptions where
  method : String
  path : String
  params : Option ExpireParam
  body : WriteBody
  contentType : String
deriving DecidableEq, Repr

/-- The JavaScript guard
`urlParam !== undefined && urlParam.expiration !== undefined &&
urlParam.expiration_ttl !== undefined`. -/
def bothExpireSupplied (urlParam : Option ExpireParam) : Bool :=
  match urlParam with
  | none => false
  | some u => u.expiration.isSome && u.expiration_ttl.isSome

/-- The pre-`bridge` part of `WorkersKv.writeKeyValuePair` (first
implementation, src/unnamed/part_000, lines 503-531): possibly warn,
default `urlParam` to `{}` (`urlParam = urlParam || {}`), and build the
HTTP options with `params: urlParam` — the supplied record unchanged.
The function is total: no error is thrown on the way to `bridge`. -/
def writeKeyValuePairPrep (namespaceId keyName value : String)
    (urlParam : Option ExpireParam) : List Warning × WriteHttpOptions :=
  let warns := if bothExpireSupplied urlParam then [bothExpireWarning] else []
  let up := urlParam.getD ⟨none, none⟩
  (warns,
    { method := "PUT"
      path := "namespaces/" ++ namespaceId ++ "/values/" ++ keyName
      params := some up
      body := .plainText value
      contentType := "plainText" })

/-- The pre-`bridge` part of `WorkersKv.writeKeyValuePairMeta` (first
implementation, src/unnamed/part_000, lines 572-601): possibly warn,
build `reqData = {value, metadata: JSON.stringify(metadata)}`, and
build the HTTP options with `params: urlParam || null` — the supplied
record unchanged when it is defined.  Total: no error is thrown. -/
def writeKeyValuePairMetaPrep (namespaceId keyName value metadataJson : String)
    (urlParam : Option ExpireParam) : List Warning × WriteHttpOptions :=
  let warns := if bothExpireSupplied urlParam then [bothExpireWarning] else []
  (warns,
    { method := "PUT"
      path := "namespaces/" ++ namespaceId ++ "/values/" ++ keyName
      params := urlParam
      body := .formData value metadataJson
      contentType := "formData" })

/-! ### The boolean-returning operations -/

/-- What a public operation can throw: a JavaScript error propagated by
`bridge` (transport / serialization / listener failure) or a
`WorkersKvError` built by `genReturnFromCfRes`. -/
inductive OpThrow (ε η : Type) where
  | js (e : ThrownErr)
  | kv (e : KvError ε η)
deriving DecidableEq, Repr

/-- A public operation whose return statement is
`this.genReturnFromCfRes("boolean", req, command.command)`:
run `bridge` with the operation's command label and validation mode on
the stubbed fetch outcome, then feed the response through
`genReturnFromCfRes`. -/
def runBoolOp (commandLabel : String) (m : VMethod)
    (isValidateCfResponse : Bool) (fs : List (Listener String χ ε η))
    (outcome : FetchOutcome χ ε η) (resultOf : χ → ρ) :
    BridgeRun String χ ε η × Except (OpThrow ε η) (RetVal ρ χ) :=
  let br := bridge isValidateCfResponse fs commandLabel m outcome
  match br.final with
  | .error e => (br, .error (.js e))
  | .ok req =>
    match genReturnFromCfRes .bool req commandLabel resultOf with
    | .error ke => (br, .error (.kv ke))
    | .ok v => (br, .ok v)

/-- `WorkersKv.removeNamespace` (src/unnamed/part_000, lines 254-284):
mode `"withoutResult"`, return method `"boolean"`. -/
def removeNamespaceRun (v : Bool) (fs : List (Listener String χ ε η))
    (o : FetchOutcome χ ε η) (resultOf : χ → ρ) :=
  runBoolOp "Remove a namespace" .withoutResult v fs o resultOf

/-- `WorkersKv.renameNamespace` (lines 298-329): mode
`"withoutResult"`, return method `"boolean"`. -/
def renameNamespaceRun (v : Bool) (fs : List (Listener String χ ε η))
    (o : FetchOutcome χ ε η) (resultOf : χ → ρ) :=
  runBoolOp "Rename a namespace" .withoutResult v fs o resultOf

/-- The post-warning part of `WorkersKv.writeKeyValuePair`
(lines 492-535): mode `"withoutResult"`, return method `"boolean"`. -/
def writeKeyValuePairRun (v : Bool) (fs : List (Listener String χ ε η))
    (o : FetchOutcome χ ε η) (resultOf : χ → ρ) :=
  runBoolOp "Write key-value pair" .withoutResult v fs o resultOf

/-- The post-warning part of `WorkersKv.writeKeyValuePairMeta`
(lines 558-604): mode `"withoutResult"`, return method `"boolean"`. -/
def writeKeyValuePairMetaRun (v : Bool) (fs : List (Listener String χ ε η))
    (o : FetchOutcome χ ε η) (resultOf : χ → ρ) :=
  runBoolOp "Write key-value pair with metadata" .withoutResult v fs o resultOf

/-- `WorkersKv.writeMultipleKeyValuePairs` (lines 625-661): mode
`"withoutResult"`, return method `"boolean"`. -/
def writeMultipleKeyValuePairsRun (v : Bool) (fs : List (Listener String χ ε η))
    (o : FetchOutcome χ ε η) (resultOf : χ → ρ) :=
  runBoolOp "Write multiple key-value pairs" .withoutResult v fs o resultOf

/-- `WorkersKv.deleteKeyValuePair` (lines 674-702): `bridge` is called
without a third argument, so the default mode `"full"` applies; return
method `"boolean"`. -/
def deleteKeyValuePairRun (v : Bool) (fs : List (Listener String χ ε η))
    (o : FetchOutcome χ ε η) (resultOf : χ → ρ) :=
  runBoolOp "Delete key-value pair" .full v fs o resultOf

/-- `WorkersKv.deleteMultipleKeyValuePairs` (lines 716-746): mode
`"withoutResult"`, return method `"boolean"`. -/
def deleteMultipleKeyValuePairsRun (v : Bool) (fs : List (Listener String χ ε η))
    (o : FetchOutcome χ ε η) (resultOf : χ → ρ) :=
  runBoolOp "Delete multiple key-value pairs" .withoutResult v fs o resultOf

/-! ### The Fetch-and-Classify classification step, modelled from the spec -/

/-- Modelled from the spec: the raw material of classification inside
`CfHttpFetch.fetch` (file `fetch.js`, absent from `src/`): the HTTP
status code, the boolean `success` field of the parsed body when it
parsed and the field is present, and the `errors` field of the body
when present. -/
structure RawCfResponse (ε : Type) where
  status : Nat
  bodySuccess : Option Bool
  bodyErrors : Option (List ε)
deriving DecidableEq, Repr

/-- Modelled from the spec: the status-code-derived success signal,
`status ∈ [200, 300)`. -/
def statusOk (status : Nat) : Bool :=
  decide (200 ≤ status) && decide (status < 300)

/-- Modelled from the spec (§4.2 step 5, `fetch.js` absent from
`src/`): the tri-state success flag.  In `"string"` mode success is
inferred purely from the HTTP status.  Otherwise, a parsed boolean
`success` field is trusted over the status code, except that when
integrity validation is enabled and the two signals disagree the
result is downgraded to uncertain (`none`); when the field is absent
the status code decides. -/
def classifySuccess (validate : Bool) (mode : VMethod) (r : RawCfResponse ε) :
    Option Bool :=
  match mode with
  | .str => some (statusOk r.status)
  | _ =>
    match r.bodySuccess with
    | none => some (statusOk r.status)
    | some b =>
      if validate && (b != statusOk r.status) then none else some b

/-- Modelled from the spec (§4.2 step 6, `fetch.js` absent from
`src/`): `serviceError` is populated from the body's `errors` field
when present, otherwise `null`; in `"string"` mode the body is the
result value itself and carries no envelope. -/
def classifyServiceError (mode : VMethod) (r : RawCfResponse ε) :
    Option (List ε) :=
  match mode with
  | .str => none
  | _ => r.bodyErrors

/-! ### Concrete instances used by witnesses and counterexamples -/

/-- A well-behaved extension function: never throws. -/
def okListener : Listener String Nat Nat Nat := fun _ => .ok ()

/-- An extension function that throws exactly when it receives a fetch
response (i.e. during the success-path notification, whose
`cfFetchRes` is non-null), and returns normally on the failure-path
notification (whose `cfFetchRes` is null). -/
def throwOnResponseListener : Listener String Nat Nat Nat :=
  fun a => if a.cfFetchRes.isSome then .error (.listenerFailure 7) else .ok ()

/-- A fetch response with a clean success: flag `true`, no `cfError`. -/
def resOk : OwnFetchResponse Nat Nat Nat := ⟨some true, none, 0, 0⟩

/-- A fetch response reporting failure with a Cloudflare error list. -/
def resFailed : OwnFetchResponse Nat Nat Nat := ⟨some false, some [9], 0, 0⟩

/-- A fetch response with the uncertain outcome
(`isCfReqSuccess = null`) and a Cloudflare error list. -/
def resUncertain : OwnFetchResponse Nat Nat Nat := ⟨none, some [9], 0, 0⟩

/-- Identity accessor on the `Nat`-instantiated parsed body. -/
def natAccessor : Nat → Nat := fun n => n

/-- Errors accessor on the `Nat`-instantiated parsed body:
`cfRes["errors"]` is the list `[9]`. -/
def errorsAccessor : Nat → Option (List Nat) := fun _ => some [9]

/-- Errors accessor on the `Nat`-instantiated parsed body for a
response whose body carries no `errors` field: `cfRes["errors"]` is
JavaScript `undefined`. -/
def noErrorsAccessor : Nat → Option (List Nat) := fun _ => none

/-! ### Helper lemmas about the listener loop -/

/-- When every listener returns normally, the loop of
`funcArgHandlers` invokes the listeners at consecutive indices starting
at `i` and no exception propagates. -/
theorem funcArgHandlersFrom_all_ok {κ χ ε η : Type} (i : Nat)
    (fs : List (Listener κ χ ε η)) (a : ListenerArgs κ χ ε η)
    (h : ∀ f ∈ fs, f a = .ok ()) :
    funcArgHandlersFrom i fs a = (List.range' i fs.length, none) := by
  induction fs generalizing i with
  | nil => simp [funcArgHandlersFrom, List.range']
  | cons f rest ih =>
    have hf : f a = .ok () := h f (by simp)
    have hrest : ∀ g ∈ rest, g a = .ok () := fun g hg => h g (by simp [hg])
    simp [funcArgHandlersFrom, hf, ih (i + 1) hrest, List.range'_succ]

/-- When the listeners before `f` return normally and `f` throws `e`,
the loop invokes exactly the listeners up to and including `f` and the
exception `e` propagates; the listeners after `f` are not invoked. -/
theorem funcArgHandlersFrom_throw {κ χ ε η : Type} (i : Nat)
    (fs gs : List (Listener κ χ ε η)) (f : Listener κ χ ε η)
    (a : ListenerArgs κ χ ε η) (e : ThrownErr)
    (h : ∀ g ∈ fs, g a = .ok ()) (hf : f a = .error e) :
    funcArgHandlersFrom i (fs ++ f :: gs) a =
      (List.range' i (fs.length + 1), some e) := by
  induction fs generalizing i with
  | nil => simp [funcArgHandlersFrom, hf, List.range'_succ, List.range']
  | cons g rest ih =>
    have hg : g a = .ok () := h g (by simp)
    have hrest : ∀ g2 ∈ rest, g2 a = .ok () := fun g2 hg2 => h g2 (by simp [hg2])
    have step : funcArgHandlersFrom i (g :: (rest ++ f :: gs)) a =
        (i :: (funcArgHandlersFrom (i + 1) (rest ++ f :: gs) a).1,
          (funcArgHandlersFrom (i + 1) (rest ++ f :: gs) a).2) := by
      simp [funcArgHandlersFrom, hg]
    rw [List.cons_append, step, ih (i + 1) hrest, List.length_cons]
    simp [List.range'_succ]

/-- `funcArgHandlers` with all-normal listeners: every registered
listener is invoked exactly once, in registration order. -/
theorem funcArgHandlers_all_ok {κ χ ε η : Type}
    (fs : List (Listener κ χ ε η)) (a : ListenerArgs κ χ ε η)
    (h : ∀ f ∈ fs, f a = .ok ()) :
    funcArgHandlers fs a = (List.range fs.length, none) := by
  rw [funcArgHandlers, funcArgHandlersFrom_all_ok 0 fs a h, List.range_eq_range']

/-! ### Claim C1 -/

/-- C1, as stated, is false: `funcArgHandlers` has no `try`/`catch`
around the listener call.  Counterexample: two registered listeners,
the first of which throws on the success notification.  Only index `0`
is invoked (the second listener never runs), and `bridge` ends in an
error even though the fetch succeeded — the operation fails. -/
theorem claim1_counterexample :
    funcArgHandlers [throwOnResponseListener, okListener]
        ⟨resOk.isCfReqSuccess, "c", some resOk, cfErrDetail resOk.cfError⟩ =
      ([0], some (.listenerFailure 7)) ∧
    ([0] : List Nat) ≠ [0, 1] ∧
    (bridge true [throwOnResponseListener, okListener] "c" .full (.ok resOk)).final =
      .error (.listenerFailure 7) := by
  refine ⟨rfl, by decide, rfl⟩

/-- C1 amended: `funcArgHandlers` invokes the registered listeners in
registration order, each at most once per notification.  When no
listener throws, all of them are invoked exactly once; when a listener
throws, the listeners after it are not invoked for that notification
and the exception propagates — inside `bridge`, a listener that throws
during the success notification is caught by the `catch` block, which
performs a second (failure) notification and then fails the whole
operation with the listener's exception. -/
theorem claim1_listener_order_abort_and_failure {κ χ ε η : Type} :
    (∀ (fs : List (Listener κ χ ε η)) (a : ListenerArgs κ χ ε η),
      (∀ f ∈ fs, f a = .ok ()) →
      funcArgHandlers fs a = (List.range fs.length, none)) ∧
    (∀ (fs gs : List (Listener κ χ ε η)) (f : Listener κ χ ε η)
        (a : ListenerArgs κ χ ε η) (e : ThrownErr),
      (∀ g ∈ fs, g a = .ok ()) → f a = .error e →
      funcArgHandlers (fs ++ f :: gs) a = (List.range (fs.length + 1), some e)) ∧
    (∀ (v : Bool) (fs : List (Listener κ χ ε η)) (cmd : κ) (m : VMethod)
        (res : OwnFetchResponse χ ε η) (inv : List Nat) (e1 : ThrownErr),
      funcArgHandlers fs
          ⟨res.isCfReqSuccess, cmd, some res, cfErrDetail res.cfError⟩ = (inv, some e1) →
      (∀ f ∈ fs, f ⟨some false, cmd, none, .serialized e1⟩ = .ok ()) →
      (bridge v fs cmd m (.ok res)).final = .error e1) := by
  refine ⟨funcArgHandlers_all_ok, ?_, ?_⟩
  · intro fs gs f a e h hf
    rw [funcArgHandlers, funcArgHandlersFrom_throw 0 fs gs f a e h hf,
      List.range_eq_range']
  · intro v fs cmd m res inv e1 h1 h2
    simp only [bridge, h1, funcArgHandlers_all_ok fs _ h2]

/-- Witness for the amended C1: a concrete run of each conjunct.
One well-behaved listener is invoked exactly once; with a listener that
throws on the success notification placed first, only it runs and the
exception propagates; inside `bridge` the whole operation then fails
with the listener's exception. -/
theorem claim1_witness :
    funcArgHandlers [okListener]
        ⟨some true, "c", none, .null⟩ = (List.range 1, none) ∧
    funcArgHandlers ([] ++ throwOnResponseListener :: [okListener])
        ⟨resOk.isCfReqSuccess, "c", some resOk, cfErrDetail resOk.cfError⟩ =
      (List.range 1, some (.listenerFailure 7)) ∧
    (bridge true [throwOnResponseListener] "c" .full (.ok resOk)).final =
      .error (.listenerFailure 7) := by
  refine ⟨?_, ?_, ?_⟩
  · exact claim1_listener_order_abort_and_failure.1 [okListener] _
      (by intro f hf; simp at hf; subst hf; rfl)
  · exact claim1_listener_order_abort_and_failure.2.1 [] [okListener]
      throwOnResponseListener _ (.listenerFailure 7) (by intro g hg; simp at hg) rfl
  · exact claim1_listener_order_abort_and_failure.2.2 true [throwOnResponseListener]
      "c" .full resOk [0] (.listenerFailure 7) rfl
      (by intro f hf; simp at hf; subst hf; rfl)

/-! ### Claim C3 -/

/-- C3: when the underlying fetch throws a transport error, `bridge`
performs exactly one notification — every registered listener (all of
which return normally) is invoked exactly once, in registration order,
with `processSuccess = false`, a null fetch response, and the
serialized error — and then re-throws the same error to the caller. -/
theorem claim3_transport_notify_then_rethrow {κ χ ε η : Type}
    (v : Bool) (fs : List (Listener κ χ ε η)) (cmd : κ) (m : VMethod) (d : Nat)
    (h : ∀ f ∈ fs,
      f ⟨some false, cmd, none, .serialized (.transport d)⟩ = .ok ()) :
    bridge v fs cmd m (.threw (.transport d)) =
      ⟨validateArgOf v m,
        [(⟨some false, cmd, none, .serialized (.transport d)⟩,
          List.range fs.length)],
        .error (.transport d)⟩ := by
  simp only [bridge, funcArgHandlers_all_ok fs _ h]

/-- Witness for C3: one registered listener, a concrete transport
error; the notification and the re-throw are observed. -/
theorem claim3_witness :
    bridge true [okListener] "c" .full (.threw (.transport 5)) =
      ⟨validateArgOf true .full,
        [(⟨some false, "c", none, .serialized (.transport 5)⟩, List.range 1)],
        .error (.transport 5)⟩ :=
  claim3_transport_notify_then_rethrow true [okListener] "c" .full 5
    (by intro f hf; simp at hf; subst hf; rfl)

/-! ### Claim C4 -/

/-- C4, as stated, is false: `bridge` wraps the whole `CfHttpFetch`
call in its `try` block, so an error thrown before the request is sent
(a serialization failure) is caught exactly like a transport failure:
the listeners ARE invoked (here: invocation list `[0]`, not empty)
before the error propagates. -/
theorem claim4_counterexample :
    (bridge true [okListener] "c" .full
        (.threw (.serializationFailure 3))).notifs =
      [(⟨some false, "c", none, .serialized (.serializationFailure 3)⟩, [0])] ∧
    ([0] : List Nat) ≠ [] ∧
    (bridge true [okListener] "c" .full
        (.threw (.serializationFailure 3))).final =
      .error (.serializationFailure 3) := by
  refine ⟨rfl, by decide, rfl⟩

/-- C4 amended: a serialization failure propagates to the caller, but
an event IS emitted first: the registered listeners (all of which
return normally) are each invoked exactly once with
`processSuccess = false`, a null fetch response and the serialized
error — exactly as for a transport failure. -/
theorem claim4_serialization_notifies_then_throws {κ χ ε η : Type}
    (v : Bool) (fs : List (Listener κ χ ε η)) (cmd : κ) (m : VMethod) (d : Nat)
    (h : ∀ f ∈ fs,
      f ⟨some false, cmd, none, .serialized (.serializationFailure d)⟩ = .ok ()) :
    bridge v fs cmd m (.threw (.serializationFailure d)) =
      ⟨validateArgOf v m,
        [(⟨some false, cmd, none, .serialized (.serializationFailure d)⟩,
          List.range fs.length)],
        .error (.serializationFailure d)⟩ := by
  simp only [bridge, funcArgHandlers_all_ok fs _ h]

/-- Witness for the amended C4. -/
theorem claim4_witness :
    bridge true [okListener] "c" .full (.threw (.serializationFailure 3)) =
      ⟨validateArgOf true .full,
        [(⟨some false, "c", none, .serialized (.serializationFailure 3)⟩,
          List.range 1)],
        .error (.serializationFailure 3)⟩ :=
  claim4_serialization_notifies_then_throws true [okListener] "c" .full 3
    (by intro f hf; simp at hf; subst hf; rfl)

/-! ### Claim C5 -/

/-- C5, as stated, is false: when the driver is constructed with
`isValidateCfResponse = false`, the expression
`this.isValidateCfResponse && validateCfResponseMethod` evaluates to
the boolean `false`, which is none of the three mode strings. -/
theorem claim5_counterexample :
    (bridge false ([] : List (Listener String Nat Nat Nat)) "c" .full
        (.ok resOk)).validateArg = .vbool false ∧
    ValidateArg.vbool false ≠ .vstr .full ∧
    ValidateArg.vbool false ≠ .vstr .str ∧
    ValidateArg.vbool false ≠ .vstr .withoutResult := by
  refine ⟨rfl, by decide, by decide, by decide⟩

/-- C5 amended: the argument `bridge` passes to `CfHttpFetch` is the
mode string when `isValidateCfResponse` is `true`, and the boolean
`false` (not a mode string) when it is `false` — for every operation
and every fetch outcome. -/
theorem claim5_validate_arg {κ χ ε η : Type}
    (v : Bool) (fs : List (Listener κ χ ε η)) (cmd : κ) (m : VMethod)
    (o : FetchOutcome χ ε η) :
    (bridge v fs cmd m o).validateArg =
      (if v then .vstr m else .vbool false) := by
  rcases o with res | e <;>
    simp only [bridge, validateArgOf] <;>
    (repeat' split) <;> rfl


/-! ### Claim C2 -/

/-- The uncertain-outcome error title always differs from the failure
error title, whatever the command label: their lengths differ. -/
theorem uncertain_name_ne_failed (cmd : String) :
    UNCERTAIN_ERR_MSG cmd ≠ "Failed to " ++ cmd := by
  intro h
  have hl := congrArg String.length h
  rw [UNCERTAIN_ERR_MSG, String.length_append, String.length_append,
    String.length_append] at hl
  have h1 : ("It is uncertain that whether the request \x27" : String).length
      = 42 := by decide
  have h2 : ("\x27 has been performed successfully." : String).length
      = 34 := by decide
  have h3 : ("Failed to " : String).length = 10 := by decide
  rw [h1, h2, h3] at hl
  omega

/-- C2, as stated, is false for `listNamespaceKeys`: that method does
not go through `genReturnFromCfRes` but tests
`if (req.isCfReqSuccess)`, under which the uncertain outcome `null` is
falsy.  On an uncertain result it throws exactly the same error as on a
confirmed failure — the failure title, not a distinct one. -/
theorem claim2_counterexample :
    listNamespaceKeysStep resUncertain natAccessor natAccessor errorsAccessor =
      listNamespaceKeysStep resFailed natAccessor natAccessor errorsAccessor ∧
    listNamespaceKeysStep resUncertain natAccessor natAccessor errorsAccessor =
      .error ⟨"Failed to " ++ listKeysCommand, "", .cfErrors [9]⟩ :=
  ⟨rfl, rfl⟩

/-- C2 amended: every operation that returns through
`genReturnFromCfRes` throws, on an uncertain result, an error whose
title is the uncertain-specific message, distinct from the failure
title; `listNamespaceKeys`, however, throws the failure-titled error
even when the result is uncertain. -/
theorem claim2_uncertain_message {χ ε η ρ ι : Type} :
    (∀ (method : RetMethod) (req : OwnFetchResponse χ ε η) (cmd : String)
        (f : χ → ρ), req.isCfReqSuccess = none →
      ∃ e, genReturnFromCfRes method req cmd f = .error e ∧
        e.name = UNCERTAIN_ERR_MSG cmd ∧ e.name ≠ "Failed to " ++ cmd) ∧
    (∀ (req : OwnFetchResponse χ ε η) (f : χ → ρ) (g : χ → ι)
        (errs : χ → Option (List ε)), req.isCfReqSuccess = none →
      listNamespaceKeysStep req f g errs =
        .error ⟨"Failed to " ++ listKeysCommand, "",
          errInfoOfErrors (errs req.cfRes)⟩) := by
  constructor
  · intro method req cmd f h
    obtain ⟨s, ce, cr, ht⟩ := req
    cases h
    cases ce
    · exact ⟨_, rfl, rfl, uncertain_name_ne_failed cmd⟩
    · exact ⟨_, rfl, rfl, uncertain_name_ne_failed cmd⟩
  · intro req f g errs h
    obtain ⟨s, ce, cr, ht⟩ := req
    cases h
    rfl

/-- Witness for the amended C2, at a concrete uncertain response. -/
theorem claim2_witness :
    (∃ e, genReturnFromCfRes .bool resUncertain "Remove a namespace"
        natAccessor = .error e ∧
      e.name = UNCERTAIN_ERR_MSG "Remove a namespace" ∧
      e.name ≠ "Failed to " ++ "Remove a namespace") ∧
    listNamespaceKeysStep resUncertain natAccessor natAccessor errorsAccessor =
      .error ⟨"Failed to " ++ listKeysCommand, "",
        errInfoOfErrors (errorsAccessor resUncertain.cfRes)⟩ :=
  ⟨(@claim2_uncertain_message Nat Nat Nat Nat Nat).1 .bool resUncertain
      "Remove a namespace" natAccessor rfl,
    (@claim2_uncertain_message Nat Nat Nat Nat Nat).2 resUncertain natAccessor
      natAccessor errorsAccessor rfl⟩

/-! ### Claim C6 -/

/-- C6, as stated, is false for `listNamespaceKeys`: that method does
not go through `genReturnFromCfRes`; on a failed response it throws
`WorkersKvError("Failed to ...", "", req.cfRes["errors"])`
(src/unnamed/part_000, line 385).  When the body carries no `errors`
field the thrown payload is JavaScript `undefined` — not the raw HTTP
metadata `req.http` that the claim promises for the absent-error
case. -/
theorem claim6_counterexample :
    listNamespaceKeysStep
        (⟨some false, none, 0, 8⟩ : OwnFetchResponse Nat Nat Nat)
        natAccessor natAccessor noErrorsAccessor =
      .error ⟨"Failed to " ++ listKeysCommand, "", .jsUndefined⟩ ∧
    (ErrInfo.jsUndefined : ErrInfo Nat Nat) ≠ .http 8 :=
  ⟨rfl, by decide⟩

/-- C6 amended: operations that return through `genReturnFromCfRes`
raise, on `isCfReqSuccess === false`, a `WorkersKvError` titled with
the failure message that carries the Cloudflare error list when
`cfError` is present and the raw HTTP metadata `req.http` otherwise;
`listNamespaceKeys`, however, raises an error carrying the body's
`errors` field verbatim — JavaScript `undefined` when it is absent —
and never `req.http`. -/
theorem claim6_failure_payload_except_listKeys {χ ε η ρ ι : Type} :
    (∀ (method : RetMethod) (req : OwnFetchResponse χ ε η) (cmd : String)
        (f : χ → ρ), req.isCfReqSuccess = some false →
      genReturnFromCfRes method req cmd f =
        .error ⟨"Failed to " ++ cmd,
          (match req.cfError with
            | some _ => REF_ERR_MSG
            | none => NULL_ERR_MSG),
          (match req.cfError with
            | some l => .cfErrors l
            | none => .http req.http)⟩) ∧
    (∀ (req : OwnFetchResponse χ ε η) (f : χ → ρ) (g : χ → ι)
        (errs : χ → Option (List ε)), req.isCfReqSuccess = some false →
      listNamespaceKeysStep req f g errs =
        .error ⟨"Failed to " ++ listKeysCommand, "",
          errInfoOfErrors (errs req.cfRes)⟩) := by
  constructor
  · intro method req cmd f h
    obtain ⟨s, ce, cr, ht⟩ := req
    cases h
    cases ce <;> rfl
  · intro req f g errs h
    obtain ⟨s, ce, cr, ht⟩ := req
    cases h
    rfl

/-- Witness for the amended C6: a failed response carrying a Cloudflare
error list, one carrying none, and a failed `listNamespaceKeys` whose
body reports errors. -/
theorem claim6_witness :
    genReturnFromCfRes .bool resFailed "Remove a namespace" natAccessor =
      .error ⟨"Failed to " ++ "Remove a namespace", REF_ERR_MSG,
        .cfErrors [9]⟩ ∧
    genReturnFromCfRes .bool
        (⟨some false, none, 0, 8⟩ : OwnFetchResponse Nat Nat Nat)
        "Remove a namespace" natAccessor =
      .error ⟨"Failed to " ++ "Remove a namespace", NULL_ERR_MSG, .http 8⟩ ∧
    listNamespaceKeysStep resFailed natAccessor natAccessor errorsAccessor =
      .error ⟨"Failed to " ++ listKeysCommand, "",
        errInfoOfErrors (errorsAccessor resFailed.cfRes)⟩ :=
  ⟨(@claim6_failure_payload_except_listKeys Nat Nat Nat Nat Nat).1 .bool
      resFailed "Remove a namespace" natAccessor rfl,
    (@claim6_failure_payload_except_listKeys Nat Nat Nat Nat Nat).1 .bool
      ⟨some false, none, 0, 8⟩ "Remove a namespace" natAccessor rfl,
    (@claim6_failure_payload_except_listKeys Nat Nat Nat Nat Nat).2 resFailed
      natAccessor natAccessor errorsAccessor rfl⟩

/-! ### Claim C7 -/

/-- C7, as stated, is false against the spec-modelled classification:
`serviceError` is populated from the body's `errors` field regardless
of the success flag, so a body claiming `success: true` alongside a
non-empty `errors` list yields `isOperationSuccess = true` with a
non-empty `serviceError`. -/
theorem claim7_counterexample :
    classifySuccess true .full
        (⟨200, some true, some [3]⟩ : RawCfResponse Nat) = some true ∧
    classifyServiceError .full
        (⟨200, some true, some [3]⟩ : RawCfResponse Nat) = some [3] ∧
    (some [3] : Option (List Nat)) ≠ none ∧
    (some [3] : Option (List Nat)) ≠ some [] := by
  refine ⟨rfl, rfl, by decide, by decide⟩

/-- C7 amended: `serviceError` is the body's `errors` field verbatim
(and absent in `"string"` mode), independently of the success flag;
hence `isOperationSuccess = true` implies `serviceError` is
empty/absent exactly when the body does not pair its success marker
with a non-empty `errors` list. -/
theorem claim7_success_serviceError {ε : Type} :
    (∀ r : RawCfResponse ε, classifyServiceError .str r = none) ∧
    (∀ (m : VMethod) (r : RawCfResponse ε), m ≠ .str →
      classifyServiceError m r = r.bodyErrors) ∧
    (∀ (v : Bool) (m : VMethod) (r : RawCfResponse ε),
      classifySuccess v m r = some true →
      (r.bodyErrors = none ∨ r.bodyErrors = some []) →
      (classifyServiceError m r = none ∨
        classifyServiceError m r = some [])) := by
  refine ⟨fun r => rfl, ?_, ?_⟩
  · intro m r hm
    cases m
    · rfl
    · exact absurd rfl hm
    · rfl
  · intro v m r hs hb
    cases m
    · exact hb
    · exact Or.inl rfl
    · exact hb

/-- Witness for the amended C7. -/
theorem claim7_witness :
    classifyServiceError .str
        (⟨200, some true, some [3]⟩ : RawCfResponse Nat) = none ∧
    classifyServiceError .full
        (⟨200, some true, some [3]⟩ : RawCfResponse Nat) =
      (⟨200, some true, some [3]⟩ : RawCfResponse Nat).bodyErrors ∧
    (classifyServiceError .full
        (⟨200, some true, none⟩ : RawCfResponse Nat) = none ∨
      classifyServiceError .full
        (⟨200, some true, none⟩ : RawCfResponse Nat) = some []) :=
  ⟨claim7_success_serviceError.1 _,
    claim7_success_serviceError.2.1 .full _ (by decide),
    claim7_success_serviceError.2.2 true .full _ rfl (Or.inl rfl)⟩

/-! ### Claim C8 -/

/-- C8: when both `expiration` and `expiration_ttl` are supplied to
`writeKeyValuePair` or `writeKeyValuePairMeta`, exactly the one warning
is logged and the operation proceeds — the prep step is total (nothing
is thrown) and the outgoing HTTP options carry the supplied `urlParam`
unchanged, both fields included. -/
theorem claim8_both_expirations_warn_and_proceed
    (ns k val mjson : String) (a b : Nat) :
    (writeKeyValuePairPrep ns k val (some ⟨some a, some b⟩)).1 =
      [bothExpireWarning] ∧
    (writeKeyValuePairPrep ns k val (some ⟨some a, some b⟩)).2.params =
      some ⟨some a, some b⟩ ∧
    (writeKeyValuePairMetaPrep ns k val mjson (some ⟨some a, some b⟩)).1 =
      [bothExpireWarning] ∧
    (writeKeyValuePairMetaPrep ns k val mjson
        (some ⟨some a, some b⟩)).2.params = some ⟨some a, some b⟩ :=
  ⟨rfl, rfl, rfl, rfl⟩

/-! ### Claim C9 -/

/-- In `"boolean"` mode, a non-throwing `genReturnFromCfRes` can only
return the boolean `true`: the `false` and `null` flags both throw. -/
theorem genReturnFromCfRes_bool_ok {χ ε η ρ : Type}
    (req : OwnFetchResponse χ ε η) (cmd : String) (f : χ → ρ)
    (w : RetVal ρ χ)
    (h : genReturnFromCfRes .bool req cmd f = .ok w) : w = .bool true := by
  obtain ⟨s, ce, cr, ht⟩ := req
  rcases s with _ | b
  · cases ce <;> simp [genReturnFromCfRes] at h
  · cases b
    · cases ce <;> simp [genReturnFromCfRes] at h
    · simp [genReturnFromCfRes] at h
      exact h.symm

/-- A boolean-returning operation either throws or returns `true`: for
every fetch outcome and listener list, an `.ok` result of the
`bridge`-plus-`genReturnFromCfRes` pipeline is `true`. -/
theorem runBoolOp_ok_true {χ ε η ρ : Type} (cmd : String) (m : VMethod)
    (v : Bool) (fs : List (Listener String χ ε η)) (o : FetchOutcome χ ε η)
    (f : χ → ρ) (rv : RetVal ρ χ)
    (h : (runBoolOp cmd m v fs o f).2 = .ok rv) : rv = .bool true := by
  cases hbr : (bridge v fs cmd m o).final with
  | error e => simp [runBoolOp, hbr] at h
  | ok req =>
    cases hg : genReturnFromCfRes .bool req cmd f with
    | error ke => simp [runBoolOp, hbr, hg] at h
    | ok w =>
      simp [runBoolOp, hbr, hg] at h
      exact h ▸ genReturnFromCfRes_bool_ok req cmd f w hg

/-- C9: each of the seven boolean-declared public operations
(`removeNamespace`, `renameNamespace`, `writeKeyValuePair`,
`writeKeyValuePairMeta`, `writeMultipleKeyValuePairs`,
`deleteKeyValuePair`, `deleteMultipleKeyValuePairs`) either throws or
returns `true`; none of them ever returns `false`, for any constructor
flag, listener list, or stubbed fetch outcome. -/
theorem claim9_bool_ops_return_true_or_throw {χ ε η ρ : Type} :
    (∀ (v : Bool) (fs : List (Listener String χ ε η)) (o : FetchOutcome χ ε η)
        (f : χ → ρ) (rv : RetVal ρ χ),
      (removeNamespaceRun v fs o f).2 = .ok rv → rv = .bool true) ∧
    (∀ (v : Bool) (fs : List (Listener String χ ε η)) (o : FetchOutcome χ ε η)
        (f : χ → ρ) (rv : RetVal ρ χ),
      (renameNamespaceRun v fs o f).2 = .ok rv → rv = .bool true) ∧
    (∀ (v : Bool) (fs : List (Listener String χ ε η)) (o : FetchOutcome χ ε η)
        (f : χ → ρ) (rv : RetVal ρ χ),
      (writeKeyValuePairRun v fs o f).2 = .ok rv → rv = .bool true) ∧
    (∀ (v : Bool) (fs : List (Listener String χ ε η)) (o : FetchOutcome χ ε η)
        (f : χ → ρ) (rv : RetVal ρ χ),
      (writeKeyValuePairMetaRun v fs o f).2 = .ok rv → rv = .bool true) ∧
    (∀ (v : Bool) (fs : List (Listener String χ ε η)) (o : FetchOutcome χ ε η)
        (f : χ → ρ) (rv : RetVal ρ χ),
      (writeMultipleKeyValuePairsRun v fs o f).2 = .ok rv →
        rv = .bool true) ∧
    (∀ (v : Bool) (fs : List (Listener String χ ε η)) (o : FetchOutcome χ ε η)
        (f : χ → ρ) (rv : RetVal ρ χ),
      (deleteKeyValuePairRun v fs o f).2 = .ok rv → rv = .bool true) ∧
    (∀ (v : Bool) (fs : List (Listener String χ ε η)) (o : FetchOutcome χ ε η)
        (f : χ → ρ) (rv : RetVal ρ χ),
      (deleteMultipleKeyValuePairsRun v fs o f).2 = .ok rv →
        rv = .bool true) :=
  ⟨fun v fs o f rv h => runBoolOp_ok_true _ _ v fs o f rv h,
    fun v fs o f rv h => runBoolOp_ok_true _ _ v fs o f rv h,
    fun v fs o f rv h => runBoolOp_ok_true _ _ v fs o f rv h,
    fun v fs o f rv h => runBoolOp_ok_true _ _ v fs o f rv h,
    fun v fs o f rv h => runBoolOp_ok_true _ _ v fs o f rv h,
    fun v fs o f rv h => runBoolOp_ok_true _ _ v fs o f rv h,
    fun v fs o f rv h => runBoolOp_ok_true _ _ v fs o f rv h⟩

/-- Witness for C9: a concrete successful `removeNamespace` run
returns `.ok`, and the theorem pins the value to `true`. -/
theorem claim9_witness :
    (removeNamespaceRun true ([] : List (Listener String Nat Nat Nat))
        (.ok resOk) natAccessor).2 = .ok (.bool true) ∧
    (RetVal.bool true : RetVal Nat Nat) = RetVal.bool true :=
  ⟨rfl,
    claim9_bool_ops_return_true_or_throw.1 true [] (.ok resOk) natAccessor
      (.bool true) rfl⟩

/-! ### Claim C10 -/

/-- C10, as stated, is false: on a fetch response with
`isCfReqSuccess = false` and a `cfError` list, the first implementation
notifies the listeners with `(false, command, cfFetch, cfError)` while
the second notifies `(true, command, cfFetch, null)` — the recorded
notifications differ. -/
theorem claim10_counterexample :
    (bridge true ([] : List (Listener String Nat Nat Nat)) "c" .full
        (.ok resFailed)).notifs ≠
      (bridgeSnd ([] : List (Listener String Nat Nat Nat)) "c" .full
        (.ok resFailed)).notifs := by
  decide

/-- C10 amended: the two implementations agree — same validation-mode
argument, same notifications, same return/throw — when the first is
constructed with `isValidateCfResponse = true`, on the thrown-fetch
path and on fetch responses with `isCfReqSuccess === true` and
`cfError === null`; and `genReturnFromCfRes` of the two agrees whenever
`isCfReqSuccess === true`.  (They diverge otherwise: in listener
arguments on non-clean responses, and in the thrown error's title,
message and payload on failed or uncertain responses.) -/
theorem claim10_equiv_on_clean_success {κ χ ε η ρ : Type} :
    (∀ (m : VMethod) (fs : List (Listener κ χ ε η)) (cmd : κ) (e : ThrownErr),
      bridge true fs cmd m (.threw e) = bridgeSnd fs cmd m (.threw e)) ∧
    (∀ (m : VMethod) (fs : List (Listener κ χ ε η)) (cmd : κ)
        (res : OwnFetchResponse χ ε η),
      res.isCfReqSuccess = some true → res.cfError = none →
      bridge true fs cmd m (.ok res) = bridgeSnd fs cmd m (.ok res)) ∧
    (∀ (method : RetMethod) (req : OwnFetchResponse χ ε η) (cmd : String)
        (f : χ → ρ) (errs : χ → Option (List ε)),
      req.isCfReqSuccess = some true →
      genReturnFromCfRes method req cmd f =
        genReturnFromCfResSnd method req cmd f errs) := by
  refine ⟨fun m fs cmd e => rfl, ?_, ?_⟩
  · intro m fs cmd res h1 h2
    obtain ⟨s, ce, cr, ht⟩ := res
    cases h1
    cases h2
    rfl
  · intro method req cmd f errs h
    obtain ⟨s, ce, cr, ht⟩ := req
    cases h
    cases method <;> rfl

/-- Witness for the amended C10, at concrete clean-success and
transport-failure inputs. -/
theorem claim10_witness :
    bridge true ([] : List (Listener String Nat Nat Nat)) "c" .full
        (.ok resOk) = bridgeSnd [] "c" .full (.ok resOk) ∧
    genReturnFromCfRes .bool resOk "c" natAccessor =
      genReturnFromCfResSnd .bool resOk "c" natAccessor errorsAccessor ∧
    bridge true ([] : List (Listener String Nat Nat Nat)) "c" .full
        (.threw (.transport 5)) =
      bridgeSnd [] "c" .full (.threw (.transport 5)) :=
  ⟨(@claim10_equiv_on_clean_success String Nat Nat Nat Nat).2.1 .full [] "c"
      resOk rfl rfl,
    (@claim10_equiv_on_clean_success String Nat Nat Nat Nat).2.2 .bool resOk
      "c" natAccessor errorsAccessor rfl,
    (@claim10_equiv_on_clean_success String Nat Nat Nat Nat).1 .full [] "c"
      (.transport 5)⟩

end CfKv
